import Mathlib

/-!
# Telegram screenshot bot: effect-trace model of `main.go`

The program is sequential glue around three external libraries (gin, the Telegram bot
client, chromedp) and the `os` package.  Each function of `main.go` is embedded as a pure
function from the answers of the external calls it makes to the ordered list of effects
it performs (and, for the capture flow, the resulting file-system state).

* errors are carried by their message (`String`); `Option String` is Go's `error`
  (`none` is `nil`);
* `int64` chat identifiers are `Int` (no arithmetic is performed on them);
* `[]byte` is `List Nat`;
* Go strings are Lean strings; the two scheme literals tested by the handler are ASCII,
  so the byte-wise `strings.HasPrefix` agrees with the character-wise test used here.
-/

namespace TelegramBot

/-! ## Data model (`main.go` lines 18-39) -/

abbrev Bytes := List Nat

/-- The constant `screenshotFileName`. -/
def screenshotFileName : String := "screenshot.png"

/-- Go struct `Chat`. -/
structure Chat where
  ID : Int
  deriving DecidableEq, Repr

/-- Go struct `Message`. -/
structure Message where
  Chat : Chat
  Text : String
  deriving DecidableEq, Repr

/-- Go struct `TelegramUpdate`. -/
structure TelegramUpdate where
  UpdateID : Int
  Message : Message
  deriving DecidableEq, Repr

/-! ## Effects -/

/-- Values handed to `bot.Send`: `tgbotapi.NewMessage(chatID, text)` and
`tgbotapi.NewPhoto(chatID, tgbotapi.FilePath(file))` with its `Caption` field set. -/
inductive Chattable where
  | message (chatID : Int) (text : String)
  | photo (chatID : Int) (file : String) (caption : String)
  deriving DecidableEq, Repr

/-- Arguments of a `log.Printf` call. -/
inductive LogArg where
  | int (n : Int)
  | str (s : String)
  | err (e : String)
  deriving DecidableEq, Repr

/-- The chromedp actions passed to `chromedp.Run`. -/
inductive Action where
  | emulateViewport (width height : Nat)
  | navigate (urlstr : String)
  | sleep (seconds : Nat)
  | fullScreenshot (quality : Nat)
  deriving DecidableEq, Repr

/-- One externally visible action of the handler or of the capture flow, in the order the
source performs them. -/
inductive Effect where
  /-- Call `log.Printf(format, args...)` -/
  | logPrintf (format : String) (args : List LogArg)
  /-- Call `bot.Send(c)` -/
  | send (c : Chattable)
  /-- Call `go takeAndSendScreenshot(urlstr, chatID)` -/
  | go (urlstr : String) (chatID : Int)
  /-- Call `c.JSON(status, gin.H ...)`, the body given as its key/value pairs -/
  | json (status : Nat) (body : List (String × String))
  /-- Call `os.Remove(name)` -/
  | remove (name : String)
  /-- Call `chromedp.NewContext(context.Background())` -/
  | newContext
  /-- Call `chromedp.Run(ctx, actions...)` -/
  | run (actions : List Action)
  /-- Call `os.WriteFile(name, data, perm)` -/
  | writeFile (name : String) (data : Bytes) (perm : Nat)
  /-- the deferred `cancel()` of the chromedp context -/
  | cancel
  deriving DecidableEq, Repr

def Effect.isLog : Effect → Bool
  | .logPrintf _ _ => true
  | _ => false

def Effect.isSend : Effect → Bool
  | .send _ => true
  | _ => false

def Effect.isPhotoSend : Effect → Bool
  | .send (.photo _ _ _) => true
  | _ => false

def Effect.isTextSend : Effect → Bool
  | .send (.message _ _) => true
  | _ => false

def Effect.isGo : Effect → Bool
  | .go _ _ => true
  | _ => false

def Effect.isResponse : Effect → Bool
  | .json _ _ => true
  | _ => false

/-- File-system operations: `os.Remove` and `os.WriteFile`. -/
def Effect.isFileOp : Effect → Bool
  | .remove _ => true
  | .writeFile _ _ _ => true
  | _ => false

def Effect.isWrite : Effect → Bool
  | .writeFile _ _ _ => true
  | _ => false

/-- The path a file-system operation touches. -/
def Effect.path? : Effect → Option String
  | .remove name => some name
  | .writeFile name _ _ => some name
  | _ => none

/-! ## `handleTelegramWebhook` (`main.go` lines 74-99) -/

/-- Go's `strings.HasPrefix(s, pre)`: `len(s) >= len(pre) && s[:len(pre)] == pre`. -/
def HasPrefix (s pre : String) : Bool :=
  decide (pre.length ≤ s.length) && (s.data.take pre.length == pre.data)

/-- The constant `http.StatusOK`. -/
def StatusOK : Nat := 200

/-- The constant `http.StatusBadRequest`. -/
def StatusBadRequest : Nat := 400

def ackText : String := "¡Enlace detectado! Tomando una captura de pantalla..."

/-- The handler.  `bindJSON` is the outcome of `c.BindJSON(&update)` on the request body
(the decoding itself is gin's); `sendErr` is the error returned by the acknowledgement
`bot.Send`, which the source discards. -/
def handleTelegramWebhook (bindJSON : Except String TelegramUpdate)
    (_sendErr : Option String) : List Effect :=
  match bindJSON with
  | .error err =>
    [ .logPrintf "Error al decodificar JSON: %v" [.err err],
      .json StatusBadRequest [("error", "JSON no válido")] ]
  | .ok update =>
    let url := update.Message.Text
    [ .logPrintf "Nuevo mensaje del chat %d: %s"
        [.int update.Message.Chat.ID, .str update.Message.Text] ] ++
    (if HasPrefix url "http://" || HasPrefix url "https://" then
      let msg := Chattable.message update.Message.Chat.ID ackText
      [ .send msg, .go url update.Message.Chat.ID ]
    else []) ++
    [ .json StatusOK [("status", "ok")] ]

/-! ## File system and the external answers of one capture run -/

/-- Contents of the working directory: the bytes held by each path, `none` when the path
does not exist.  Paths are tracked by name only (hard links and symbolic links between
paths are not represented), so the map is used for what a run does to the path it names,
`screenshot.png`, and nothing is derived from it about other paths. -/
abbrev FS := String → Option Bytes

def FS.erase (fs : FS) (name : String) : FS :=
  fun p => if p = name then none else fs p

def FS.put (fs : FS) (name : String) (data : Bytes) : FS :=
  fun p => if p = name then some data else fs p

/-- State after `os.Remove(name)` returned `err`: the path is gone when the call
succeeded, and nothing changed when it returned an error. -/
def osRemove (fs : FS) (name : String) (err : Option String) : FS :=
  match err with
  | none => fs.erase name
  | some _ => fs

/-- How an `os.WriteFile` call went.  The library opens the file with
`O_WRONLY|O_CREATE|O_TRUNC`, writes the data and closes it; an error comes either from
the open (the directory is untouched) or from the write/close (the file exists and holds
what was written until then). -/
inductive WriteResult where
  | ok
  | openErr (err : String)
  | writeErr (err : String) (written : Bytes)
  deriving DecidableEq, Repr

/-- The error an `os.WriteFile` call returns. -/
def WriteResult.err? : WriteResult → Option String
  | .ok => none
  | .openErr err => some err
  | .writeErr err _ => some err

/-- State and returned error of `os.WriteFile(name, data, _)`. -/
def osWriteFile (fs : FS) (name : String) (data : Bytes) : WriteResult → FS × Option String
  | .ok => (fs.put name data, none)
  | .openErr err => (fs, some err)
  | .writeErr err written => (fs.put name written, some err)

/-- Answers of the outside world to the calls of one run of `takeAndSendScreenshot`. -/
structure World where
  /-- error returned by the `os.Remove` of line 104 (discarded by the source) -/
  removeFirst : Option String
  /-- result of `chromedp.Run`: its error, or the bytes left in `buf` -/
  run : Except String Bytes
  /-- outcome of `os.WriteFile` -/
  write : WriteResult
  /-- error returned by `bot.Send` for a given message -/
  send : Chattable → Option String
  /-- error returned by the `os.Remove` of line 145 (discarded by the source) -/
  removeLast : Option String

/-! ## `takeAndSendScreenshot` (`main.go` lines 102-146) -/

def captureErrText : String := "Ocurrió un error al tomar la captura de pantalla."

def saveErrText : String := "Ocurrió un error al guardar la captura de pantalla."

def photoCaption : String := "Captura de pantalla de la URL."

/-- The actions of the `chromedp.Run` call, lines 111-119. -/
def captureActions (urlstr : String) : List Action :=
  [.emulateViewport 1920 1080, .navigate urlstr, .sleep 2, .fullScreenshot 90]

/-- The photo message of lines 136-137. -/
def photoMsg (chatID : Int) : Chattable :=
  .photo chatID screenshotFileName photoCaption

/-- The capture flow: the effects it performs, in order, and the file system it leaves.
The deferred `cancel()` runs when the function returns, hence last on every path. -/
def takeAndSendScreenshot (w : World) (urlstr : String) (chatID : Int) (fs : FS) :
    List Effect × FS :=
  let fs₁ := osRemove fs screenshotFileName w.removeFirst
  let start : List Effect :=
    [.remove screenshotFileName, .newContext, .run (captureActions urlstr)]
  match w.run with
  | .error err =>
    let errMsg := Chattable.message chatID captureErrText
    (start ++ [.logPrintf "Error al tomar la captura de pantalla: %v" [.err err],
               .send errMsg, .cancel], fs₁)
  | .ok buf =>
    match osWriteFile fs₁ screenshotFileName buf w.write with
    | (fs₂, some err) =>
      let errMsg := Chattable.message chatID saveErrText
      (start ++ [.writeFile screenshotFileName buf 0o644,
                 .logPrintf "Error al guardar la captura de pantalla: %v" [.err err],
                 .send errMsg, .cancel], fs₂)
    | (fs₂, none) =>
      let sendLog : List Effect :=
        match w.send (photoMsg chatID) with
        | some err => [.logPrintf "Error al enviar la foto a Telegram: %v" [.err err]]
        | none => []
      (start ++ [.writeFile screenshotFileName buf 0o644, .send (photoMsg chatID)] ++
         sendLog ++ [.remove screenshotFileName, .cancel],
       osRemove fs₂ screenshotFileName w.removeLast)

/-! ## The capture flow as a step machine, and two runs sharing the directory

The same function, one external call per step, so that the steps of two goroutines
started by the handler can be interleaved.  Each step is one statement of the source. -/

/-- Program points of `takeAndSendScreenshot`; a point names the call about to be made. -/
inductive Pc where
  /-- line 104, `os.Remove` -/
  | removeFirst
  /-- line 107, `chromedp.NewContext` -/
  | newContext
  /-- line 111, `chromedp.Run` -/
  | run
  /-- line 121, `log.Printf` of the capture error -/
  | logRunErr (err : String)
  /-- line 123, `bot.Send` of the capture-error text -/
  | sendRunErr
  /-- line 128, `os.WriteFile` of `buf` -/
  | write (buf : Bytes)
  /-- line 129, `log.Printf` of the write error -/
  | logWriteErr (err : String)
  /-- line 131, `bot.Send` of the save-error text -/
  | sendWriteErr
  /-- line 140, `bot.Send` of the photo -/
  | sendPhoto
  /-- line 141, `log.Printf` of the send error -/
  | logSendErr (err : String)
  /-- line 145, `os.Remove` -/
  | removeLast
  /-- the deferred `cancel()` -/
  | cancel
  /-- returned -/
  | done
  deriving DecidableEq, Repr

/-- One step of a run: the effect performed, the next program point and the file system
after the call; `none` once the function has returned. -/
def step (w : World) (urlstr : String) (chatID : Int) (fs : FS) :
    Pc → Option (Effect × Pc × FS)
  | .removeFirst =>
    some (.remove screenshotFileName, .newContext, osRemove fs screenshotFileName w.removeFirst)
  | .newContext => some (.newContext, .run, fs)
  | .run =>
    match w.run with
    | .error err => some (.run (captureActions urlstr), .logRunErr err, fs)
    | .ok buf => some (.run (captureActions urlstr), .write buf, fs)
  | .logRunErr err =>
    some (.logPrintf "Error al tomar la captura de pantalla: %v" [.err err], .sendRunErr, fs)
  | .sendRunErr => some (.send (.message chatID captureErrText), .cancel, fs)
  | .write buf =>
    match osWriteFile fs screenshotFileName buf w.write with
    | (fs₂, some err) => some (.writeFile screenshotFileName buf 0o644, .logWriteErr err, fs₂)
    | (fs₂, none) => some (.writeFile screenshotFileName buf 0o644, .sendPhoto, fs₂)
  | .logWriteErr err =>
    some (.logPrintf "Error al guardar la captura de pantalla: %v" [.err err],
          .sendWriteErr, fs)
  | .sendWriteErr => some (.send (.message chatID saveErrText), .cancel, fs)
  | .sendPhoto =>
    match w.send (photoMsg chatID) with
    | some err => some (.send (photoMsg chatID), .logSendErr err, fs)
    | none => some (.send (photoMsg chatID), .removeLast, fs)
  | .logSendErr err =>
    some (.logPrintf "Error al enviar la foto a Telegram: %v" [.err err], .removeLast, fs)
  | .removeLast =>
    some (.remove screenshotFileName, .cancel, osRemove fs screenshotFileName w.removeLast)
  | .cancel => some (.cancel, .done, fs)
  | .done => none

/-- Runs one goroutine alone for at most `fuel` steps from program point `pc`. -/
def runAlone (w : World) (urlstr : String) (chatID : Int) :
    Nat → Pc → FS → List Effect × FS
  | 0, _, fs => ([], fs)
  | fuel + 1, pc, fs =>
    match step w urlstr chatID fs pc with
    | none => ([], fs)
    | some (e, pc', fs') =>
      let r := runAlone w urlstr chatID fuel pc' fs'
      (e :: r.1, r.2)

/-- A goroutine running `takeAndSendScreenshot(urlstr, chatID)`. -/
structure Task where
  w : World
  urlstr : String
  chatID : Int
  pc : Pc

/-- A goroutine that has just been started. -/
def Task.spawn (w : World) (urlstr : String) (chatID : Int) : Task :=
  ⟨w, urlstr, chatID, .removeFirst⟩

/-- The two capture goroutines. -/
inductive Tid where
  | first
  | second
  deriving DecidableEq, Repr

/-- Two concurrent runs over one working directory, with the calls made so far. -/
structure Sys where
  fs : FS
  first : Task
  second : Task
  trace : List (Tid × Effect)

/-- The scheduler lets goroutine `t` make its next call (nothing happens when it has
returned). -/
def Sys.sched (s : Sys) : Tid → Sys
  | .first =>
    match step s.first.w s.first.urlstr s.first.chatID s.fs s.first.pc with
    | none => s
    | some (e, pc', fs') =>
      { s with fs := fs', first := { s.first with pc := pc' },
               trace := s.trace ++ [(.first, e)] }
  | .second =>
    match step s.second.w s.second.urlstr s.second.chatID s.fs s.second.pc with
    | none => s
    | some (e, pc', fs') =>
      { s with fs := fs', second := { s.second with pc := pc' },
               trace := s.trace ++ [(.second, e)] }

/-- Runs an interleaving, given as the order in which the goroutines are scheduled. -/
def Sys.runSchedule (s : Sys) (schedule : List Tid) : Sys :=
  schedule.foldl Sys.sched s

/-- Both goroutines freshly started on the directory `fs`. -/
def Sys.init (fs : FS) (t₁ t₂ : Task) : Sys :=
  ⟨fs, t₁, t₂, []⟩

/-! ## `main` (`main.go` lines 42-71) -/

/-- The handler functions of the program that a route can name. -/
inductive HandlerRef where
  | handleTelegramWebhook
  deriving DecidableEq, Repr

/-- Calls made by `main`, in order. -/
inductive BootEffect where
  /-- Call `godotenv.Load()` -/
  | godotenvLoad
  /-- Call `log.Println(msg)` -/
  | logPrintln (msg : String)
  /-- Call `os.Getenv(key)` -/
  | getenv (key : String)
  /-- Call `log.Fatal(msg)`: prints and calls `os.Exit(1)` -/
  | logFatal (msg : String)
  /-- Call `tgbotapi.NewBotAPI(token)` -/
  | newBotAPI (token : String)
  /-- Call `log.Printf(format, args...)` -/
  | logPrintf (format : String) (args : List LogArg)
  /-- Call `gin.Default()` -/
  | ginDefault
  /-- Call `router.POST(path, handler)` -/
  | routerPOST (path : String) (handler : HandlerRef)
  /-- Call `router.Run(addr)` -/
  | routerRun (addr : String)
  deriving DecidableEq, Repr

def BootEffect.isFatal : BootEffect → Bool
  | .logFatal _ => true
  | _ => false

def BootEffect.isNewBotAPI : BootEffect → Bool
  | .newBotAPI _ => true
  | _ => false

def BootEffect.isRoute : BootEffect → Bool
  | .routerPOST _ _ => true
  | _ => false

def BootEffect.isRun : BootEffect → Bool
  | .routerRun _ => true
  | _ => false

/-- What `main` finds when it starts. -/
structure BootEnv where
  /-- error returned by `godotenv.Load()` -/
  loadErr : Option String
  /-- result of `os.Getenv`, read after the load; the empty string when the variable is unset -/
  getenv : String → String
  /-- result of `tgbotapi.NewBotAPI(token)`: its error, or the `Self.UserName` of the bot -/
  newBotAPI : String → Except String String

def envWarning : String :=
  "Advertencia: No se pudo cargar el archivo .env. Asegúrate de que las variables de entorno están configuradas manualmente."

def tokenMissing : String :=
  "Error: La variable de entorno TELEGRAM_BOT_TOKEN no está configurada."

/-- The calls `main` makes; the list ends at a `log.Fatal`, which exits the process. -/
def main (env : BootEnv) : List BootEffect :=
  let loaded : List BootEffect :=
    .godotenvLoad ::
      (match env.loadErr with
       | some _ => [.logPrintln envWarning]
       | none => [])
  let token := env.getenv "TELEGRAM_BOT_TOKEN"
  if token = "" then
    loaded ++ [.getenv "TELEGRAM_BOT_TOKEN", .logFatal tokenMissing]
  else
    match env.newBotAPI token with
    | .error err =>
      loaded ++ [.getenv "TELEGRAM_BOT_TOKEN", .newBotAPI token, .logFatal err]
    | .ok userName =>
      loaded ++ [.getenv "TELEGRAM_BOT_TOKEN", .newBotAPI token,
                 .logPrintf "Bot autorizado en la cuenta %s" [.str userName],
                 .ginDefault,
                 .routerPOST "/webhook" .handleTelegramWebhook,
                 .routerRun ":8080"]

end TelegramBot

namespace TelegramBot

/-! ## Handler -/

/-- The test `HasPrefix s pre` holds exactly when the characters of `pre` are the first
characters of `s`. -/
theorem HasPrefix_iff (s pre : String) : HasPrefix s pre = true ↔ pre.data <+: s.data := by
  unfold HasPrefix
  rw [List.prefix_iff_eq_take]
  simp only [Bool.and_eq_true, decide_eq_true_eq, beq_iff_eq, String.length]
  constructor
  · rintro ⟨_, h⟩
    exact h.symm
  · intro h
    refine ⟨?_, h.symm⟩
    have := congrArg List.length h
    simp only [List.length_take] at this
    omega

/-- C1: for every successfully parsed update whose text starts with "http://" or
"https://", the handler's effects other than its log line are, in this order, one send of
the acknowledgement text to the update's chat id, one spawn of the capture flow on the
whole message text and that chat id, and the response 200 with body status=ok, whatever
the acknowledgement send returned. -/
theorem C1_url_ack_then_spawn_then_ok (update : TelegramUpdate) (sendErr : Option String)
    (h : HasPrefix update.Message.Text "http://" = true ∨
         HasPrefix update.Message.Text "https://" = true) :
    (handleTelegramWebhook (.ok update) sendErr).filter (fun e => !e.isLog) =
      [ .send (.message update.Message.Chat.ID
          "¡Enlace detectado! Tomando una captura de pantalla..."),
        .go update.Message.Text update.Message.Chat.ID,
        .json 200 [("status", "ok")] ] := by
  have hc : (HasPrefix update.Message.Text "http://" ||
             HasPrefix update.Message.Text "https://") = true := by
    rcases h with h | h <;> simp [h]
  simp [handleTelegramWebhook, hc, Effect.isLog, ackText, StatusOK]

theorem C1_witness :
    (handleTelegramWebhook (.ok ⟨1, ⟨⟨555⟩, "https://example.com"⟩⟩)
        (some "Forbidden: bot was blocked by the user")).filter (fun e => !e.isLog) =
      [ .send (.message 555 "¡Enlace detectado! Tomando una captura de pantalla..."),
        .go "https://example.com" 555,
        .json 200 [("status", "ok")] ] :=
  C1_url_ack_then_spawn_then_ok ⟨1, ⟨⟨555⟩, "https://example.com"⟩⟩
    (some "Forbidden: bot was blocked by the user") (Or.inr (by decide))

/-- C2: for every successfully parsed update whose text starts with neither "http://" nor
"https://", the handler sends nothing, spawns nothing, and its only response is 200 with
body status=ok. -/
theorem C2_other_text_only_ok (update : TelegramUpdate) (sendErr : Option String)
    (h₁ : HasPrefix update.Message.Text "http://" = false)
    (h₂ : HasPrefix update.Message.Text "https://" = false) :
    (handleTelegramWebhook (.ok update) sendErr).filter Effect.isSend = [] ∧
    (handleTelegramWebhook (.ok update) sendErr).filter Effect.isGo = [] ∧
    (handleTelegramWebhook (.ok update) sendErr).filter (fun e => !e.isLog) =
      [ .json 200 [("status", "ok")] ] := by
  simp [handleTelegramWebhook, h₁, h₂, Effect.isLog, Effect.isSend, Effect.isGo, StatusOK]

theorem C2_witness :
    (handleTelegramWebhook (.ok ⟨1, ⟨⟨555⟩, "hello"⟩⟩) none).filter (fun e => !e.isLog) =
      [ .json 200 [("status", "ok")] ] ∧
    (handleTelegramWebhook (.ok ⟨1, ⟨⟨555⟩, ""⟩⟩) none).filter (fun e => !e.isLog) =
      [ .json 200 [("status", "ok")] ] ∧
    (handleTelegramWebhook (.ok ⟨1, ⟨⟨555⟩, " https://a.b"⟩⟩) none).filter
      (fun e => !e.isLog) = [ .json 200 [("status", "ok")] ] ∧
    (handleTelegramWebhook (.ok ⟨1, ⟨⟨555⟩, "HTTPS://a.b"⟩⟩) none).filter
      (fun e => !e.isLog) = [ .json 200 [("status", "ok")] ] :=
  ⟨(C2_other_text_only_ok ⟨1, ⟨⟨555⟩, "hello"⟩⟩ none (by decide) (by decide)).2.2,
   (C2_other_text_only_ok ⟨1, ⟨⟨555⟩, ""⟩⟩ none (by decide) (by decide)).2.2,
   (C2_other_text_only_ok ⟨1, ⟨⟨555⟩, " https://a.b"⟩⟩ none (by decide) (by decide)).2.2,
   (C2_other_text_only_ok ⟨1, ⟨⟨555⟩, "HTTPS://a.b"⟩⟩ none (by decide) (by decide)).2.2⟩

/-- C3: when the body fails to parse, the handler's only response is 400 with an "error"
field, it sends no message and spawns no capture task, and it emits no 200 response. -/
theorem C3_bad_body_only_400 (err : String) (sendErr : Option String) :
    (handleTelegramWebhook (.error err) sendErr).filter Effect.isResponse =
      [ .json 400 [("error", "JSON no válido")] ] ∧
    (handleTelegramWebhook (.error err) sendErr).filter Effect.isSend = [] ∧
    (handleTelegramWebhook (.error err) sendErr).filter Effect.isGo = [] ∧
    (∀ body, Effect.json 200 body ∉ handleTelegramWebhook (.error err) sendErr) := by
  simp [handleTelegramWebhook, Effect.isResponse, Effect.isSend, Effect.isGo,
    StatusBadRequest]

/-! ## Capture flow -/

/-- The step machine run alone to completion is the capture flow. -/
theorem runAlone_eq_takeAndSendScreenshot (w : World) (urlstr : String) (chatID : Int)
    (fs : FS) :
    runAlone w urlstr chatID 9 .removeFirst fs = takeAndSendScreenshot w urlstr chatID fs := by
  rcases w with ⟨rf, run, write, send, rl⟩
  cases run with
  | error err => simp [runAlone, step, takeAndSendScreenshot]
  | ok buf =>
    cases write with
    | ok =>
      cases hs : send (photoMsg chatID) <;>
        simp [runAlone, step, takeAndSendScreenshot, osWriteFile, hs]
    | openErr err => simp [runAlone, step, takeAndSendScreenshot, osWriteFile]
    | writeErr err written => simp [runAlone, step, takeAndSendScreenshot, osWriteFile]

theorem osRemove_self (fs : FS) (name : String) :
    osRemove fs name none name = none := by
  simp [osRemove, FS.erase]

/-- C4 (as stated, refuted): two runs whose capture succeeds.  In the first the write of
screenshot.png fails after the file was created: no photo message is sent and the file
exists when the run ends.  In the second everything succeeds except the final
`os.Remove`, whose error the source discards: the file exists when the run ends. -/
theorem C4_counterexample :
    ((takeAndSendScreenshot
        ⟨none, .ok [137, 80, 78, 71], .writeErr "no space left on device" [], fun _ => none,
          none⟩
        "https://example.com" 555 (fun _ => none)).1.filter Effect.isPhotoSend = [] ∧
     (takeAndSendScreenshot
        ⟨none, .ok [137, 80, 78, 71], .writeErr "no space left on device" [], fun _ => none,
          none⟩
        "https://example.com" 555 (fun _ => none)).2 screenshotFileName = some []) ∧
    (takeAndSendScreenshot
        ⟨none, .ok [137, 80, 78, 71], .ok, fun _ => none, some "permission denied"⟩
        "https://example.com" 555 (fun _ => none)).2 screenshotFileName =
      some [137, 80, 78, 71] := by
  simp [takeAndSendScreenshot, osWriteFile, osRemove, FS.put, FS.erase, Effect.isPhotoSend]

/-- C4 (amended): in every run in which the capture succeeds and the write of
screenshot.png succeeds, exactly one photo message is sent, addressed to chatID, naming
screenshot.png, with caption "Captura de pantalla de la URL.", and the file does not
exist at the end when the final `os.Remove` succeeds; in every run in which the capture
fails, the file does not exist at the end when the initial `os.Remove` succeeds or the
file was absent before the run.  The file's state before the run is arbitrary. -/
theorem C4_photo_once_and_file_removed (w : World) (urlstr : String) (chatID : Int)
    (fs : FS) :
    (∀ buf, w.run = .ok buf → w.write = .ok →
      (takeAndSendScreenshot w urlstr chatID fs).1.filter Effect.isPhotoSend =
        [ .send (.photo chatID "screenshot.png" "Captura de pantalla de la URL.") ] ∧
      (w.removeLast = none →
        (takeAndSendScreenshot w urlstr chatID fs).2 "screenshot.png" = none)) ∧
    (∀ err, w.run = .error err → (w.removeFirst = none ∨ fs "screenshot.png" = none) →
      (takeAndSendScreenshot w urlstr chatID fs).2 "screenshot.png" = none) := by
  rcases w with ⟨rf, run, write, send, rl⟩
  refine ⟨?_, ?_⟩
  · intro buf hrun hwrite
    simp only at hrun hwrite
    subst hrun hwrite
    refine ⟨?_, ?_⟩
    · cases hs : send (.photo chatID "screenshot.png" "Captura de pantalla de la URL.") <;>
        simp [takeAndSendScreenshot, osWriteFile, hs, Effect.isPhotoSend, photoMsg,
          screenshotFileName, photoCaption]
    · intro hrl
      simp only at hrl
      subst hrl
      have := osRemove_self
        (osWriteFile (osRemove fs screenshotFileName rf) screenshotFileName buf .ok).1
        screenshotFileName
      simpa [takeAndSendScreenshot, osWriteFile, screenshotFileName] using this
  · intro err hrun h
    simp only at hrun h
    subst hrun
    rcases h with h | h
    · subst h
      simpa [takeAndSendScreenshot, screenshotFileName] using
        osRemove_self fs screenshotFileName
    · cases rf <;>
        simp [takeAndSendScreenshot, screenshotFileName, osRemove, FS.erase, h]

theorem C4_witness :
    (takeAndSendScreenshot
        ⟨none, .ok [137, 80, 78, 71], .ok, fun _ => none, none⟩
        "https://example.com" 555 (fun _ => some [1])).1.filter Effect.isPhotoSend =
      [ .send (.photo 555 "screenshot.png" "Captura de pantalla de la URL.") ] ∧
    (takeAndSendScreenshot
        ⟨none, .ok [137, 80, 78, 71], .ok, fun _ => none, none⟩
        "https://example.com" 555 (fun _ => some [1])).2 "screenshot.png" = none ∧
    (takeAndSendScreenshot
        ⟨none, .error "context deadline exceeded", .ok, fun _ => none, none⟩
        "https://example.com" 555 (fun _ => some [1])).2 "screenshot.png" = none :=
  ⟨((C4_photo_once_and_file_removed
        ⟨none, .ok [137, 80, 78, 71], .ok, fun _ => none, none⟩
        "https://example.com" 555 (fun _ => some [1])).1 [137, 80, 78, 71] rfl rfl).1,
   ((C4_photo_once_and_file_removed
        ⟨none, .ok [137, 80, 78, 71], .ok, fun _ => none, none⟩
        "https://example.com" 555 (fun _ => some [1])).1 [137, 80, 78, 71] rfl rfl).2 rfl,
   (C4_photo_once_and_file_removed
        ⟨none, .error "context deadline exceeded", .ok, fun _ => none, none⟩
        "https://example.com" 555 (fun _ => some [1])).2 "context deadline exceeded" rfl
      (Or.inl rfl)⟩

/-- C5: in every run in which the capture returns an error, exactly one message is sent,
it is the capture-error text addressed to chatID, no photo message is sent, no
`os.WriteFile` is performed and no path gains content. -/
theorem C5_capture_error_one_text (w : World) (urlstr : String) (chatID : Int) (fs : FS)
    (err : String) (h : w.run = .error err) :
    (takeAndSendScreenshot w urlstr chatID fs).1.filter Effect.isSend =
      [ .send (.message chatID "Ocurrió un error al tomar la captura de pantalla.") ] ∧
    (takeAndSendScreenshot w urlstr chatID fs).1.filter Effect.isPhotoSend = [] ∧
    (takeAndSendScreenshot w urlstr chatID fs).1.filter Effect.isWrite = [] ∧
    (∀ p data, (takeAndSendScreenshot w urlstr chatID fs).2 p = some data →
      fs p = some data) := by
  rcases w with ⟨rf, run, write, send, rl⟩
  simp only at h
  subst h
  refine ⟨?_, ?_, ?_, ?_⟩
  · simp [takeAndSendScreenshot, Effect.isSend, captureErrText]
  · simp [takeAndSendScreenshot, Effect.isPhotoSend]
  · simp [takeAndSendScreenshot, Effect.isWrite]
  · intro p data hp
    cases rf with
    | some e => simpa [takeAndSendScreenshot, osRemove] using hp
    | none =>
      by_cases hpn : p = screenshotFileName
      · simp [takeAndSendScreenshot, osRemove, FS.erase, hpn] at hp
      · simpa [takeAndSendScreenshot, osRemove, FS.erase, hpn] using hp

theorem C5_witness :
    (takeAndSendScreenshot
        ⟨none, .error "context deadline exceeded", .ok, fun _ => none, none⟩
        "https://example.com" 555 (fun _ => none)).1.filter Effect.isSend =
      [ .send (.message 555 "Ocurrió un error al tomar la captura de pantalla.") ] :=
  (C5_capture_error_one_text
    ⟨none, .error "context deadline exceeded", .ok, fun _ => none, none⟩
    "https://example.com" 555 (fun _ => none) "context deadline exceeded" rfl).1

/-- C6 (evaluation at the failing inputs): a failed acknowledgement send leaves no log
line in the handler beyond the inbound-message line, and a failed capture-error or
save-error text send leaves no log line in the capture flow beyond the one of the capture
or write error itself. -/
theorem C6_failed_text_send_not_logged :
    (handleTelegramWebhook (.ok ⟨1, ⟨⟨555⟩, "https://example.com"⟩⟩)
        (some "Forbidden: bot was blocked by the user")).filter Effect.isLog =
      [ .logPrintf "Nuevo mensaje del chat %d: %s" [.int 555, .str "https://example.com"] ] ∧
    (takeAndSendScreenshot
        ⟨none, .error "context deadline exceeded", .ok,
          fun _ => some "Forbidden: bot was blocked by the user", none⟩
        "https://example.com" 555 (fun _ => none)).1.filter Effect.isLog =
      [ .logPrintf "Error al tomar la captura de pantalla: %v"
          [.err "context deadline exceeded"] ] ∧
    (takeAndSendScreenshot
        ⟨none, .ok [137, 80, 78, 71], .openErr "permission denied",
          fun _ => some "Forbidden: bot was blocked by the user", none⟩
        "https://example.com" 555 (fun _ => none)).1.filter Effect.isLog =
      [ .logPrintf "Error al guardar la captura de pantalla: %v"
          [.err "permission denied"] ] := by
  refine ⟨by decide, by decide, by decide⟩

/-- C7 (as stated, refuted): in a run where every call succeeds the photo is sent and the
last effect is the deferred `cancel()` of the browser context, not the delete. -/
theorem C7_counterexample :
    Effect.send (.photo 555 "screenshot.png" "Captura de pantalla de la URL.") ∈
      (takeAndSendScreenshot ⟨none, .ok [137, 80, 78, 71], .ok, fun _ => none, none⟩
        "https://example.com" 555 (fun _ => none)).1 ∧
    (takeAndSendScreenshot ⟨none, .ok [137, 80, 78, 71], .ok, fun _ => none, none⟩
        "https://example.com" 555 (fun _ => none)).1.getLast? = some .cancel ∧
    (takeAndSendScreenshot ⟨none, .ok [137, 80, 78, 71], .ok, fun _ => none, none⟩
        "https://example.com" 555 (fun _ => none)).1.getLast? ≠
      some (.remove "screenshot.png") := by
  simp [takeAndSendScreenshot, osWriteFile, photoMsg, screenshotFileName, photoCaption]

/-- C7 (amended): in every run the first effect is a delete of screenshot.png, followed by
the creation of the browser context and the browser run; in every run that reaches the
photo send, whether the send succeeds or fails, the run ends with a delete of that same
file followed only by the deferred cancel of the browser context, the send comes before
that delete, and the delete is the last file operation; every `os.Remove` and
`os.WriteFile` call of a run names screenshot.png. -/
theorem C7_delete_first_and_after_send (w : World) (urlstr : String) (chatID : Int)
    (fs : FS) :
    (takeAndSendScreenshot w urlstr chatID fs).1.take 3 =
      [ .remove "screenshot.png", .newContext, .run (captureActions urlstr) ] ∧
    (Effect.send (photoMsg chatID) ∈ (takeAndSendScreenshot w urlstr chatID fs).1 →
      (∃ before, (takeAndSendScreenshot w urlstr chatID fs).1 =
          before ++ [ .remove "screenshot.png", .cancel ] ∧
        Effect.send (photoMsg chatID) ∈ before) ∧
      ((takeAndSendScreenshot w urlstr chatID fs).1.filter Effect.isFileOp).getLast? =
        some (.remove "screenshot.png")) ∧
    (∀ e ∈ (takeAndSendScreenshot w urlstr chatID fs).1, ∀ p, e.path? = some p →
      p = "screenshot.png") := by
  rcases w with ⟨rf, run, write, send, rl⟩
  refine ⟨?_, ?_, ?_⟩
  · cases run with
    | error err => simp [takeAndSendScreenshot, screenshotFileName]
    | ok buf =>
      cases write <;> simp [takeAndSendScreenshot, osWriteFile, screenshotFileName]
  · cases run with
    | error err => simp [takeAndSendScreenshot, photoMsg]
    | ok buf =>
      cases write with
      | ok =>
        intro _
        cases hs : send (photoMsg chatID) with
        | none =>
          refine ⟨⟨[ .remove "screenshot.png", .newContext, .run (captureActions urlstr),
            .writeFile "screenshot.png" buf 0o644, .send (photoMsg chatID) ], ?_, ?_⟩, ?_⟩ <;>
            simp [takeAndSendScreenshot, osWriteFile, hs, screenshotFileName,
              Effect.isFileOp]
        | some e =>
          refine ⟨⟨[ .remove "screenshot.png", .newContext, .run (captureActions urlstr),
            .writeFile "screenshot.png" buf 0o644, .send (photoMsg chatID),
            .logPrintf "Error al enviar la foto a Telegram: %v" [.err e] ], ?_, ?_⟩, ?_⟩ <;>
            simp [takeAndSendScreenshot, osWriteFile, hs, screenshotFileName,
              Effect.isFileOp]
      | openErr e => simp [takeAndSendScreenshot, osWriteFile, photoMsg]
      | writeErr e written => simp [takeAndSendScreenshot, osWriteFile, photoMsg]
  · intro e he p hp
    cases run with
    | error err =>
      simp [takeAndSendScreenshot, screenshotFileName] at he
      rcases he with rfl | rfl | rfl | rfl | rfl | rfl <;> simp_all [Effect.path?]
    | ok buf =>
      cases write with
      | ok =>
        cases hs : send (photoMsg chatID) <;>
          simp [takeAndSendScreenshot, osWriteFile, hs, screenshotFileName] at he <;>
          rcases he with rfl | rfl | rfl | rfl | rfl | rfl | rfl | rfl <;>
          simp_all [Effect.path?]
      | openErr e' =>
        simp [takeAndSendScreenshot, osWriteFile, screenshotFileName] at he
        rcases he with rfl | rfl | rfl | rfl | rfl | rfl | rfl <;> simp_all [Effect.path?]
      | writeErr e' written =>
        simp [takeAndSendScreenshot, osWriteFile, screenshotFileName] at he
        rcases he with rfl | rfl | rfl | rfl | rfl | rfl | rfl <;> simp_all [Effect.path?]

theorem C7_witness :
    (∃ before,
      (takeAndSendScreenshot
        ⟨none, .ok [137, 80, 78, 71], .ok, fun _ => some "Bad Request", none⟩
        "https://example.com" 555 (fun _ => none)).1 =
          before ++ [ .remove "screenshot.png", .cancel ] ∧
      Effect.send (photoMsg 555) ∈ before) ∧
    ((takeAndSendScreenshot
        ⟨none, .ok [137, 80, 78, 71], .ok, fun _ => some "Bad Request", none⟩
        "https://example.com" 555 (fun _ => none)).1.filter Effect.isFileOp).getLast? =
      some (.remove "screenshot.png") :=
  (C7_delete_first_and_after_send
    ⟨none, .ok [137, 80, 78, 71], .ok, fun _ => some "Bad Request", none⟩
    "https://example.com" 555 (fun _ => none)).2.1 (by decide)

/-- C8: in every run in which the capture succeeds and the write of screenshot.png
returns an error, that error is logged, exactly one message is sent, it is the save-error
text addressed to chatID, no photo message is sent, and from the failed write to the end
of the run (the log line, the send and the deferred cancel) there is no further file
operation: the directory is left as the failed write left it. -/
theorem C8_write_error_ends_flow (w : World) (urlstr : String) (chatID : Int) (fs : FS)
    (buf : Bytes) (err : String) (hrun : w.run = .ok buf) (hwrite : w.write.err? = some err) :
    (∃ before, (takeAndSendScreenshot w urlstr chatID fs).1 =
      before ++
        [ .writeFile "screenshot.png" buf 0o644,
          .logPrintf "Error al guardar la captura de pantalla: %v" [.err err],
          .send (.message chatID "Ocurrió un error al guardar la captura de pantalla."),
          .cancel ]) ∧
    (takeAndSendScreenshot w urlstr chatID fs).1.filter Effect.isSend =
      [ .send (.message chatID "Ocurrió un error al guardar la captura de pantalla.") ] ∧
    (takeAndSendScreenshot w urlstr chatID fs).1.filter Effect.isPhotoSend = [] ∧
    (takeAndSendScreenshot w urlstr chatID fs).1.filter Effect.isFileOp =
      [ .remove "screenshot.png", .writeFile "screenshot.png" buf 0o644 ] ∧
    (takeAndSendScreenshot w urlstr chatID fs).2 =
      (osWriteFile (osRemove fs "screenshot.png" w.removeFirst) "screenshot.png" buf
        w.write).1 := by
  rcases w with ⟨rf, run, write, send, rl⟩
  simp only at hrun hwrite
  subst hrun
  cases write with
  | ok => simp [WriteResult.err?] at hwrite
  | openErr e =>
    simp only [WriteResult.err?, Option.some.injEq] at hwrite
    subst hwrite
    refine ⟨⟨[ .remove "screenshot.png", .newContext, .run (captureActions urlstr) ], ?_⟩,
      ?_, ?_, ?_, ?_⟩ <;>
      simp [takeAndSendScreenshot, osWriteFile, screenshotFileName, saveErrText,
        Effect.isSend, Effect.isPhotoSend, Effect.isFileOp]
  | writeErr e written =>
    simp only [WriteResult.err?, Option.some.injEq] at hwrite
    subst hwrite
    refine ⟨⟨[ .remove "screenshot.png", .newContext, .run (captureActions urlstr) ], ?_⟩,
      ?_, ?_, ?_, ?_⟩ <;>
      simp [takeAndSendScreenshot, osWriteFile, screenshotFileName, saveErrText,
        Effect.isSend, Effect.isPhotoSend, Effect.isFileOp]

theorem C8_witness :
    (takeAndSendScreenshot
        ⟨none, .ok [137, 80, 78, 71], .openErr "permission denied", fun _ => none, none⟩
        "https://example.com" 555 (fun _ => none)).1.filter Effect.isSend =
      [ .send (.message 555 "Ocurrió un error al guardar la captura de pantalla.") ] :=
  (C8_write_error_ends_flow
    ⟨none, .ok [137, 80, 78, 71], .openErr "permission denied", fun _ => none, none⟩
    "https://example.com" 555 (fun _ => none) [137, 80, 78, 71] "permission denied"
    rfl rfl).2.1

/-! ## Process bootstrap -/

/-- C9: in `main`, when TELEGRAM_BOT_TOKEN reads as the empty string (empty or unset) the
process exits without constructing the bot client; when the construction of the bot
client fails the process exits without registering a route or starting the listener; a
failure to load .env changes neither whether the process exits nor any call other than
the warning line; and when the token is present and the client is constructed, exactly
one route, POST /webhook on handleTelegramWebhook, is registered and then the listener is
started, once, on ":8080". -/
theorem C9_main_fail_fast_then_one_route (env : BootEnv) :
    (env.getenv "TELEGRAM_BOT_TOKEN" = "" →
      (main env).getLast? = some (.logFatal tokenMissing) ∧
      (main env).filter BootEffect.isNewBotAPI = [] ∧
      (main env).filter BootEffect.isRoute = [] ∧
      (main env).filter BootEffect.isRun = []) ∧
    (∀ err, env.getenv "TELEGRAM_BOT_TOKEN" ≠ "" →
      env.newBotAPI (env.getenv "TELEGRAM_BOT_TOKEN") = .error err →
      (main env).getLast? = some (.logFatal err) ∧
      (main env).filter BootEffect.isRoute = [] ∧
      (main env).filter BootEffect.isRun = []) ∧
    ((main env).filter (fun e => e != .logPrintln envWarning) =
      main ⟨none, env.getenv, env.newBotAPI⟩) ∧
    (∀ userName, env.getenv "TELEGRAM_BOT_TOKEN" ≠ "" →
      env.newBotAPI (env.getenv "TELEGRAM_BOT_TOKEN") = .ok userName →
      (main env).filter BootEffect.isFatal = [] ∧
      (main env).filter BootEffect.isRoute = [ .routerPOST "/webhook" .handleTelegramWebhook ] ∧
      (main env).filter BootEffect.isRun = [ .routerRun ":8080" ] ∧
      (∃ before, main env =
        before ++ [ .routerPOST "/webhook" .handleTelegramWebhook, .routerRun ":8080" ])) := by
  rcases env with ⟨loadErr, getenv, newBotAPI⟩
  refine ⟨?_, ?_, ?_, ?_⟩
  · intro h
    simp only at h
    cases loadErr <;>
      simp [main, h, BootEffect.isNewBotAPI, BootEffect.isRoute, BootEffect.isRun]
  · intro err h₁ h₂
    simp only at h₁ h₂
    cases loadErr <;>
      simp [main, h₁, h₂, BootEffect.isRoute, BootEffect.isRun]
  · by_cases h : getenv "TELEGRAM_BOT_TOKEN" = ""
    · cases loadErr <;> simp [main, h]
    · cases hb : newBotAPI (getenv "TELEGRAM_BOT_TOKEN") <;>
        cases loadErr <;> simp [main, h, hb]
  · intro userName h₁ h₂
    simp only at h₁ h₂
    cases loadErr with
    | none =>
      refine ⟨?_, ?_, ?_, ⟨[ .godotenvLoad, .getenv "TELEGRAM_BOT_TOKEN",
        .newBotAPI (getenv "TELEGRAM_BOT_TOKEN"),
        .logPrintf "Bot autorizado en la cuenta %s" [.str userName], .ginDefault ], ?_⟩⟩ <;>
        simp [main, h₁, h₂, BootEffect.isFatal, BootEffect.isRoute, BootEffect.isRun]
    | some e =>
      refine ⟨?_, ?_, ?_, ⟨[ .godotenvLoad, .logPrintln envWarning,
        .getenv "TELEGRAM_BOT_TOKEN", .newBotAPI (getenv "TELEGRAM_BOT_TOKEN"),
        .logPrintf "Bot autorizado en la cuenta %s" [.str userName], .ginDefault ], ?_⟩⟩ <;>
        simp [main, h₁, h₂, BootEffect.isFatal, BootEffect.isRoute, BootEffect.isRun]

theorem C9_witness :
    (main ⟨some "open .env: no such file or directory",
        fun key => if key = "TELEGRAM_BOT_TOKEN" then "123:abc" else "",
        fun _ => .ok "capturas_bot"⟩).filter BootEffect.isFatal = [] ∧
    (main ⟨some "open .env: no such file or directory",
        fun key => if key = "TELEGRAM_BOT_TOKEN" then "123:abc" else "",
        fun _ => .ok "capturas_bot"⟩).filter BootEffect.isRoute =
      [ .routerPOST "/webhook" .handleTelegramWebhook ] ∧
    (main ⟨some "open .env: no such file or directory",
        fun key => if key = "TELEGRAM_BOT_TOKEN" then "123:abc" else "",
        fun _ => .ok "capturas_bot"⟩).filter BootEffect.isRun = [ .routerRun ":8080" ] ∧
    (main ⟨none, fun _ => "", fun _ => .ok "capturas_bot"⟩).getLast? =
      some (.logFatal tokenMissing) :=
  ⟨((C9_main_fail_fast_then_one_route
        ⟨some "open .env: no such file or directory",
          fun key => if key = "TELEGRAM_BOT_TOKEN" then "123:abc" else "",
          fun _ => .ok "capturas_bot"⟩).2.2.2 "capturas_bot" (by decide) rfl).1,
   ((C9_main_fail_fast_then_one_route
        ⟨some "open .env: no such file or directory",
          fun key => if key = "TELEGRAM_BOT_TOKEN" then "123:abc" else "",
          fun _ => .ok "capturas_bot"⟩).2.2.2 "capturas_bot" (by decide) rfl).2.1,
   ((C9_main_fail_fast_then_one_route
        ⟨some "open .env: no such file or directory",
          fun key => if key = "TELEGRAM_BOT_TOKEN" then "123:abc" else "",
          fun _ => .ok "capturas_bot"⟩).2.2.2 "capturas_bot" (by decide) rfl).2.2.1,
   ((C9_main_fail_fast_then_one_route
        ⟨none, fun _ => "", fun _ => .ok "capturas_bot"⟩).1 rfl).1⟩

/-! ## Two concurrent runs -/

/-- C10: for two runs of the capture flow started on the same directory, both captures
succeeding and the first run's write succeeding, there is an interleaving after which the
next call of the first run is its photo send while screenshot.png, which the first run
wrote, has just been deleted by the second run's initial `os.Remove` (when that call
succeeds), and there is an interleaving after which the next call of the first run is its
photo send while screenshot.png has just been overwritten by the second run and holds the
second run's image bytes (when the second run's write succeeds). -/
theorem C10_shared_file_race (w₁ w₂ : World) (url₁ url₂ : String) (chat₁ chat₂ : Int)
    (fs : FS) (b₁ b₂ : Bytes) (h₁ : w₁.run = .ok b₁) (h₂ : w₂.run = .ok b₂)
    (hw₁ : w₁.write = .ok) :
    (w₂.removeFirst = none →
      ∃ schedule : List Tid,
        ((Sys.init fs (.spawn w₁ url₁ chat₁) (.spawn w₂ url₂ chat₂)).runSchedule
          schedule).first.pc = .sendPhoto ∧
        (((Sys.init fs (.spawn w₁ url₁ chat₁) (.spawn w₂ url₂ chat₂)).runSchedule
          schedule).sched .first).trace.getLast? = some (.first, .send (photoMsg chat₁)) ∧
        (Tid.first, Effect.writeFile "screenshot.png" b₁ 0o644) ∈
          ((Sys.init fs (.spawn w₁ url₁ chat₁) (.spawn w₂ url₂ chat₂)).runSchedule
            schedule).trace ∧
        ((Sys.init fs (.spawn w₁ url₁ chat₁) (.spawn w₂ url₂ chat₂)).runSchedule
          schedule).trace.getLast? = some (.second, .remove "screenshot.png") ∧
        ((Sys.init fs (.spawn w₁ url₁ chat₁) (.spawn w₂ url₂ chat₂)).runSchedule
          schedule).fs "screenshot.png" = none) ∧
    (w₂.write = .ok →
      ∃ schedule : List Tid,
        ((Sys.init fs (.spawn w₁ url₁ chat₁) (.spawn w₂ url₂ chat₂)).runSchedule
          schedule).first.pc = .sendPhoto ∧
        (((Sys.init fs (.spawn w₁ url₁ chat₁) (.spawn w₂ url₂ chat₂)).runSchedule
          schedule).sched .first).trace.getLast? = some (.first, .send (photoMsg chat₁)) ∧
        (Tid.first, Effect.writeFile "screenshot.png" b₁ 0o644) ∈
          ((Sys.init fs (.spawn w₁ url₁ chat₁) (.spawn w₂ url₂ chat₂)).runSchedule
            schedule).trace ∧
        ((Sys.init fs (.spawn w₁ url₁ chat₁) (.spawn w₂ url₂ chat₂)).runSchedule
          schedule).trace.getLast? = some (.second, .writeFile "screenshot.png" b₂ 0o644) ∧
        ((Sys.init fs (.spawn w₁ url₁ chat₁) (.spawn w₂ url₂ chat₂)).runSchedule
          schedule).fs "screenshot.png" = some b₂) := by
  refine ⟨?_, ?_⟩
  · intro hr₂
    refine ⟨[.first, .first, .first, .first, .second], ?_⟩
    cases hs : w₁.send (photoMsg chat₁) <;>
      simp [Sys.runSchedule, Sys.sched, Sys.init, Task.spawn, step, osWriteFile, osRemove,
        FS.put, FS.erase, screenshotFileName, h₁, hw₁, hr₂, hs]
  · intro hw₂
    refine ⟨[.first, .first, .first, .second, .second, .second, .first, .second], ?_⟩
    cases hs : w₁.send (photoMsg chat₁) <;>
      simp [Sys.runSchedule, Sys.sched, Sys.init, Task.spawn, step, osWriteFile, osRemove,
        FS.put, FS.erase, screenshotFileName, h₁, h₂, hw₁, hw₂, hs]

theorem C10_witness :
    (∃ schedule : List Tid,
      ((Sys.init (fun _ => none)
          (.spawn ⟨none, .ok [1, 1], .ok, fun _ => none, none⟩ "https://a.example" 555)
          (.spawn ⟨none, .ok [2, 2], .ok, fun _ => none, none⟩ "https://b.example" 777)
        ).runSchedule schedule).first.pc = .sendPhoto ∧
      (((Sys.init (fun _ => none)
          (.spawn ⟨none, .ok [1, 1], .ok, fun _ => none, none⟩ "https://a.example" 555)
          (.spawn ⟨none, .ok [2, 2], .ok, fun _ => none, none⟩ "https://b.example" 777)
        ).runSchedule schedule).sched .first).trace.getLast? =
          some (.first, .send (photoMsg 555)) ∧
      (Tid.first, Effect.writeFile "screenshot.png" [1, 1] 0o644) ∈
        ((Sys.init (fun _ => none)
          (.spawn ⟨none, .ok [1, 1], .ok, fun _ => none, none⟩ "https://a.example" 555)
          (.spawn ⟨none, .ok [2, 2], .ok, fun _ => none, none⟩ "https://b.example" 777)
        ).runSchedule schedule).trace ∧
      ((Sys.init (fun _ => none)
          (.spawn ⟨none, .ok [1, 1], .ok, fun _ => none, none⟩ "https://a.example" 555)
          (.spawn ⟨none, .ok [2, 2], .ok, fun _ => none, none⟩ "https://b.example" 777)
        ).runSchedule schedule).trace.getLast? = some (.second, .remove "screenshot.png") ∧
      ((Sys.init (fun _ => none)
          (.spawn ⟨none, .ok [1, 1], .ok, fun _ => none, none⟩ "https://a.example" 555)
          (.spawn ⟨none, .ok [2, 2], .ok, fun _ => none, none⟩ "https://b.example" 777)
        ).runSchedule schedule).fs "screenshot.png" = none) ∧
    (∃ schedule : List Tid,
      ((Sys.init (fun _ => none)
          (.spawn ⟨none, .ok [1, 1], .ok, fun _ => none, none⟩ "https://a.example" 555)
          (.spawn ⟨none, .ok [2, 2], .ok, fun _ => none, none⟩ "https://b.example" 777)
        ).runSchedule schedule).first.pc = .sendPhoto ∧
      (((Sys.init (fun _ => none)
          (.spawn ⟨none, .ok [1, 1], .ok, fun _ => none, none⟩ "https://a.example" 555)
          (.spawn ⟨none, .ok [2, 2], .ok, fun _ => none, none⟩ "https://b.example" 777)
        ).runSchedule schedule).sched .first).trace.getLast? =
          some (.first, .send (photoMsg 555)) ∧
      (Tid.first, Effect.writeFile "screenshot.png" [1, 1] 0o644) ∈
        ((Sys.init (fun _ => none)
          (.spawn ⟨none, .ok [1, 1], .ok, fun _ => none, none⟩ "https://a.example" 555)
          (.spawn ⟨none, .ok [2, 2], .ok, fun _ => none, none⟩ "https://b.example" 777)
        ).runSchedule schedule).trace ∧
      ((Sys.init (fun _ => none)
          (.spawn ⟨none, .ok [1, 1], .ok, fun _ => none, none⟩ "https://a.example" 555)
          (.spawn ⟨none, .ok [2, 2], .ok, fun _ => none, none⟩ "https://b.example" 777)
        ).runSchedule schedule).trace.getLast? =
          some (.second, .writeFile "screenshot.png" [2, 2] 0o644) ∧
      ((Sys.init (fun _ => none)
          (.spawn ⟨none, .ok [1, 1], .ok, fun _ => none, none⟩ "https://a.example" 555)
          (.spawn ⟨none, .ok [2, 2], .ok, fun _ => none, none⟩ "https://b.example" 777)
        ).runSchedule schedule).fs "screenshot.png" = some [2, 2]) :=
  ⟨(C10_shared_file_race ⟨none, .ok [1, 1], .ok, fun _ => none, none⟩
      ⟨none, .ok [2, 2], .ok, fun _ => none, none⟩ "https://a.example" "https://b.example"
      555 777 (fun _ => none) [1, 1] [2, 2] rfl rfl rfl).1 rfl,
   (C10_shared_file_race ⟨none, .ok [1, 1], .ok, fun _ => none, none⟩
      ⟨none, .ok [2, 2], .ok, fun _ => none, none⟩ "https://a.example" "https://b.example"
      555 777 (fun _ => none) [1, 1] [2, 2] rfl rfl rfl).2 rfl⟩

end TelegramBot
